import Mathlib

/-!
Verification of the Zephyr MCP server core: a shallow embedding of the tool
registry (internal/registry/registry.go), the dynamic plugin manager
(pkg/plugin), the transport adapters (pkg/mcp/transport) and the metrics
collector (pkg/mcp/server/metrics.go), with theorems checking the
natural-language specification against the code.

Conventions of the embedding:
- Go errors are `Option String` (`none` = nil error, `some msg` = error msg).
- Go maps keyed by string are association lists `List (String × α)`;
  map insertion of a fresh key is modelled by appending, deletion by filtering.
- Side effects of lifecycle hooks (which hook ran, on which plugin) are made
  observable as a trace `List Event`; a Go interface value is modelled by the
  observations the embedded code can make of it (its name/version strings and
  the outcome and trace of each hook invocation).
- The background goroutine an adapter's `Start` launches is modelled as a
  separate state transition (`httpServeExit`, …): its deferred handler resets
  the `running` flag when the serving loop returns.
-/

namespace Zephyr

/-- Observable lifecycle-hook events emitted while the embedded code runs. -/
inductive Event where
  /-- Go `plugin.Open(path)` was invoked on this filesystem path. -/
  | opened (path : String)
  /-- Go `Plugin.Lookup(symName)` was invoked on the opened unit. -/
  | symLookup (symName : String)
  /-- A `DynamicPlugin`'s `Initialize()` hook was invoked. -/
  | pluginInit (name : String)
  /-- A `DynamicPlugin`'s `Shutdown()` hook was invoked. -/
  | pluginShutdown (name : String)
  /-- A plain registered tool's `Initialize()` hook was invoked. -/
  | toolInit (name : String)
  /-- A plain registered tool's `Cleanup()` hook was invoked. -/
  | toolCleanup (name : String)
  deriving DecidableEq, Repr

/-- Association-list lookup, the embedding of Go's `m[k]` for string-keyed maps. -/
def lookupName {α : Type} : List (String × α) → String → Option α
  | [], _ => none
  | (k, v) :: rest, name => if k = name then some v else lookupName rest name

/-- Association-list removal, the embedding of Go's `delete(m, k)`. -/
def eraseName {α : Type} (l : List (String × α)) (name : String) : List (String × α) :=
  l.filter (fun p => p.1 ≠ name)

/-- At most one entry per name: the map-shape invariant of a Go map rendered
as an association list. -/
def keysNodup {α : Type} (l : List (String × α)) : Prop :=
  (l.map Prod.fst).Nodup

/-- An MCP tool plugin as the registry observes it (interface `MCPToolPlugin`,
pkg/plugin/interface.go): identification strings plus the outcome and emitted
trace of one invocation of each lifecycle hook. -/
structure MCPToolPlugin where
  name : String
  version : String
  description : String
  /-- Result and trace of invoking `Initialize()`. -/
  initHook : Option String × List Event
  /-- Result and trace of invoking `Cleanup()`. -/
  cleanupHook : Option String × List Event
  deriving DecidableEq, Repr

/-- The tool registry's state (struct `Registry`, internal/registry/registry.go).
Locks are elided: each public operation is one atomic transition, which is what
holding the exclusive lock for the whole operation achieves. -/
structure Registry where
  tools : List (String × MCPToolPlugin)
  discoveryEnabled : Bool
  scanInterval : Nat
  directories : List String
  discoveryRunning : Bool
  deriving DecidableEq, Repr

/-- Go `Registry.RegisterTool` (registry.go:41-68). The argument is `none` for a
nil tool. Returns (error, new state, trace of hook invocations). -/
def registerTool (r : Registry) (tool : Option MCPToolPlugin) :
    Option String × Registry × List Event :=
  match tool with
  | none => (some "tool cannot be nil", r, [])
  | some t =>
    if t.name = "" then
      (some "tool name cannot be empty", r, [])
    else if (lookupName r.tools t.name).isSome then
      (some ("tool already registered: " ++ t.name), r, [])
    else
      match t.initHook with
      | (some e, evs) =>
        (some ("failed to initialize tool " ++ t.name ++ ": " ++ e), r, evs)
      | (none, evs) =>
        (none, { r with tools := r.tools ++ [(t.name, t)] }, evs)

/-- Go `Registry.UnregisterTool` (registry.go:71-89): cleanup failure is logged
but does not block removal. -/
def unregisterTool (r : Registry) (name : String) :
    Option String × Registry × List Event :=
  match lookupName r.tools name with
  | none => (some ("tool not found: " ++ name), r, [])
  | some t =>
    let (_, evs) := t.cleanupHook
    (none, { r with tools := eraseName r.tools name }, evs)

/-- Go `Registry.GetTool` (registry.go:92-102). -/
def getTool (r : Registry) (name : String) : Option MCPToolPlugin :=
  lookupName r.tools name

/-- Go `Registry.StartPeriodicDiscovery` (registry.go:124-141): returns nil at
once when discovery is disabled; errors when the loop is already running;
otherwise marks the loop running (the goroutine itself is not modelled). -/
def startPeriodicDiscovery (r : Registry) : Option String × Registry :=
  if !r.discoveryEnabled then
    (none, r)
  else if r.discoveryRunning then
    (some "periodic discovery already running", r)
  else
    (none, { r with discoveryRunning := true })

/-- A dynamically loaded plugin as the manager observes it (interface
`DynamicPlugin`, pkg/plugin/dynamic.go): identification strings plus the
outcome of each lifecycle hook (the hooks' invocations are traced as events). -/
structure DynamicPlugin where
  name : String
  version : String
  description : String
  /-- Result of invoking `Initialize()`. -/
  initResult : Option String
  /-- Result of invoking `Shutdown()`. -/
  shutdownResult : Option String
  deriving DecidableEq, Repr

/-- Invoke the plugin's `Initialize()` hook: its result, plus the trace entry
recording that the hook ran. -/
def DynamicPlugin.runInit (p : DynamicPlugin) : Option String × List Event :=
  (p.initResult, [Event.pluginInit p.name])

/-- Invoke the plugin's `Shutdown()` hook: its result, plus the trace entry
recording that the hook ran. -/
def DynamicPlugin.runShutdown (p : DynamicPlugin) : Option String × List Event :=
  (p.shutdownResult, [Event.pluginShutdown p.name])

/-- Plugin metadata parsed from `plugin.json` (struct `PluginMetadata`,
pkg/plugin/dynamic.go; the free-form `config_schema` object is unused by the
modelled operations and omitted). -/
structure PluginMetadata where
  name : String
  version : String
  description : String
  author : String
  apiVersion : String
  entryPoint : String
  dependencies : List String
  permissions : List String
  deriving DecidableEq, Repr

/-- The validation performed at the end of `loadMetadata` (dynamic.go:322-331)
on an already-decoded metadata value. -/
def validateMetadata (m : PluginMetadata) : Option String :=
  if m.name = "" then some "plugin name is required"
  else if m.version = "" then some "plugin version is required"
  else if m.entryPoint = "" then some "plugin entry_point is required"
  else none

/-- The symbol returned by `Plugin.Lookup`: a `*DynamicPlugin` (possibly nil),
a direct `DynamicPlugin` value, or a value of some other type (named so the
type-mismatch error can quote it, as Go's `%T` does). -/
inductive PluginSym where
  | ptr (p : Option DynamicPlugin)
  | direct (p : DynamicPlugin)
  | other (typeName : String)
  deriving DecidableEq, Repr

/-- The Go `%T` rendering of a looked-up symbol, used in the type-mismatch
error message. -/
def PluginSym.typeName : PluginSym → String
  | .ptr _ => "*plugin.DynamicPlugin"
  | .direct _ => "plugin.DynamicPlugin"
  | .other t => t

/-- An opened plugin unit: what `Lookup` returns for each symbol name. -/
structure PluginHandle where
  symLookup : String → Except String PluginSym

/-- The dynamic-loading environment: what `plugin.Open` returns for each
filesystem path. -/
structure PluginWorld where
  openUnit : String → Except String PluginHandle

/-- Go `DynamicPluginAdapter` (dynamic.go:336-373): wraps a `DynamicPlugin`
together with its metadata. -/
structure DynamicPluginAdapter where
  plugin : DynamicPlugin
  metadata : PluginMetadata
  deriving DecidableEq, Repr

/-- The `MCPToolPlugin` view of a `DynamicPluginAdapter` (dynamic.go:342-373):
name/version/description delegate to the plugin; `Initialize()` is a no-op
returning nil without touching the plugin (it was already initialized during
loading); `Cleanup()` delegates to the plugin's `Shutdown()`. -/
def DynamicPluginAdapter.toTool (a : DynamicPluginAdapter) : MCPToolPlugin :=
  { name := a.plugin.name
    version := a.plugin.version
    description := a.plugin.description
    initHook := (none, [])
    cleanupHook := a.plugin.runShutdown }

/-- A loaded plugin record (struct `LoadedPlugin`, dynamic.go:47-54; the raw
`*plugin.Plugin` handle is not observable and omitted). -/
structure LoadedPlugin where
  metadata : PluginMetadata
  plugin : DynamicPlugin
  loadedAt : Nat
  directory : String
  enabled : Bool
  deriving DecidableEq, Repr

/-- The plugin manager's state (struct `PluginManager`, dynamic.go:57-65).
Note it keeps two distinct bookkeeping maps, `plugins` and `loaded`; the
modelled operations write only `loaded` (exactly as the source does), while
`ReloadPlugin` reads `plugins`. The registry pointer is embedded as state
(`none` models a nil registry). -/
structure PluginManager where
  plugins : List (String × LoadedPlugin)
  pluginPaths : List (String × String)
  registry : Option Registry
  baseDir : String
  discovered : List (String × PluginMetadata)
  loaded : List (String × DynamicPluginAdapter)
  deriving DecidableEq, Repr

/-- The tail of `PluginManager.LoadPlugin` (dynamic.go:166-191) once the
looked-up symbol resolved to a `DynamicPlugin`: initialize the plugin, wrap it
in a `DynamicPluginAdapter`, register with the registry (shutting the plugin
down if registration fails), and record it in the loaded map. `trace` is the
trace accumulated by the open/lookup steps before this point. -/
def loadPluginResolved (pm : PluginManager) (name : String)
    (pluginInfo : PluginMetadata) (dynamicPlugin : DynamicPlugin)
    (trace : List Event) : Option String × PluginManager × List Event :=
  let (ires, ievs) := dynamicPlugin.runInit
  match ires with
  | some e =>
    (some ("failed to initialize plugin " ++ name ++ ": " ++ e), pm, trace ++ ievs)
  | none =>
    let adapter : DynamicPluginAdapter := { plugin := dynamicPlugin, metadata := pluginInfo }
    match pm.registry with
    | some reg =>
      match registerTool reg (some adapter.toTool) with
      | (some e, reg1, revs) =>
        -- Clean up: shutdown the plugin since registration failed (result discarded)
        let (_, sevs) := dynamicPlugin.runShutdown
        (some ("failed to register plugin " ++ name ++ " with registry: " ++ e),
         { pm with registry := some reg1 }, trace ++ ievs ++ revs ++ sevs)
      | (none, reg1, revs) =>
        (none, { pm with registry := some reg1,
                         loaded := pm.loaded ++ [(name, adapter)] },
         trace ++ ievs ++ revs)
    | none =>
      (none, { pm with loaded := pm.loaded ++ [(name, adapter)] }, trace ++ ievs)

/-- Go `PluginManager.LoadPlugin` (dynamic.go:124-192), parametrized by the
dynamic-loading environment `w`. Returns (error, new state, trace). -/
def loadPlugin (w : PluginWorld) (pm : PluginManager) (name : String) :
    Option String × PluginManager × List Event :=
  match lookupName pm.discovered name with
  | none => (some ("plugin " ++ name ++ " not found"), pm, [])
  | some pluginInfo =>
    if (lookupName pm.loaded name).isSome then
      (some ("plugin " ++ name ++ " already loaded"), pm, [])
    else
      match lookupName pm.pluginPaths name with
      | none => (some ("plugin directory for " ++ name ++ " not found"), pm, [])
      | some pluginDir =>
        -- plugin.Open(filepath.Join(pluginDir, name+".so"))
        let path := pluginDir ++ "/" ++ name ++ ".so"
        match w.openUnit path with
        | .error e =>
          (some ("failed to open plugin " ++ name ++ ": " ++ e), pm, [Event.opened path])
        | .ok handle =>
          match handle.symLookup "Plugin" with
          | .error e =>
            (some ("failed to find Plugin symbol in " ++ name ++ ": " ++ e), pm,
             [Event.opened path, Event.symLookup "Plugin"])
          | .ok sym =>
            -- Assert *DynamicPlugin (non-nil) first, then DynamicPlugin, else mismatch
            match sym with
            | .ptr (some dynamicPlugin) =>
              loadPluginResolved pm name pluginInfo dynamicPlugin
                [Event.opened path, Event.symLookup "Plugin"]
            | .direct dynamicPlugin =>
              loadPluginResolved pm name pluginInfo dynamicPlugin
                [Event.opened path, Event.symLookup "Plugin"]
            | _ =>
              (some ("plugin " ++ name ++ " does not implement DynamicPlugin interface (got "
                     ++ sym.typeName ++ ")"), pm,
               [Event.opened path, Event.symLookup "Plugin"])

/-- Go `PluginManager.UnloadPlugin` (dynamic.go:195-223): unregister from the
registry first (best-effort, result only logged), then invoke the plugin's
`Shutdown()`; a shutdown failure is returned — and the `delete` from the
loaded map below it is then never reached. -/
def unloadPlugin (pm : PluginManager) (name : String) :
    Option String × PluginManager × List Event :=
  match lookupName pm.loaded name with
  | none => (some ("plugin " ++ name ++ " not loaded"), pm, [])
  | some loadedPlugin =>
    let (pm1, uevs) :=
      match pm.registry with
      | none => (pm, [])
      | some reg =>
        let (_, reg1, evs) := unregisterTool reg name
        ({ pm with registry := some reg1 }, evs)
    let (sres, sevs) := loadedPlugin.plugin.runShutdown
    match sres with
    | some e =>
      (some ("failed to shutdown plugin " ++ name ++ ": " ++ e), pm1, uevs ++ sevs)
    | none =>
      (none, { pm1 with loaded := eraseName pm1.loaded name }, uevs ++ sevs)

/-- Go `PluginManager.ReloadPlugin` (dynamic.go:226-239). Note the loaded check
reads `pm.plugins`, not `pm.loaded`. -/
def reloadPlugin (w : PluginWorld) (pm : PluginManager) (name : String) :
    Option String × PluginManager × List Event :=
  let isLoaded := (lookupName pm.plugins name).isSome
  if isLoaded then
    match unloadPlugin pm name with
    | (some e, pm1, evs) =>
      (some ("failed to unload plugin for reload: " ++ e), pm1, evs)
    | (none, pm1, evs) =>
      let (res, pm2, evs2) := loadPlugin w pm1 name
      (res, pm2, evs ++ evs2)
  else
    let (res, pm2, evs2) := loadPlugin w pm name
    (res, pm2, evs2)

/-- HTTP transport configuration (struct `HTTPConfig`, transport/http.go). -/
structure HTTPConfig where
  host : String
  port : Nat
  timeout : Nat
  deriving DecidableEq, Repr

/-- The `http.Server` value the adapter builds, identified by its address
(the handler is not observable at this level). -/
structure GoHTTPServer where
  addr : String
  deriving DecidableEq, Repr

/-- Go `HTTPAdapter` state (transport/http.go:15-22): the running flag and the
(possibly nil) `http.Server` pointer. -/
structure HTTPAdapter where
  running : Bool
  httpServer : Option GoHTTPServer
  config : HTTPConfig
  deriving DecidableEq, Repr

/-- A fresh adapter as `NewHTTPAdapter` builds it (http.go:32-43):
not running, nil `http.Server`. -/
def newHTTPAdapter (cfg : HTTPConfig) : HTTPAdapter :=
  { running := false, httpServer := none, config := cfg }

/-- Go `HTTPAdapter.Start` (http.go:46-94): fails if already running; otherwise
builds the server, launches `ListenAndServe` in a background goroutine, sets
`running` and returns nil. The bind outcome is never consulted here — the
goroutine's exit is the separate transition `httpServeExit`. -/
def httpStart (h : HTTPAdapter) : Option String × HTTPAdapter :=
  if h.running then
    (some "HTTP transport already running", h)
  else
    let addr := h.config.host ++ ":" ++ toString h.config.port
    (none, { h with running := true, httpServer := some { addr := addr } })

/-- The deferred handler of the serving goroutine (http.go:79-90): when
`ListenAndServe` returns — e.g. with a bind error, which is only logged —
the flag is reset. -/
def httpServeExit (h : HTTPAdapter) : HTTPAdapter :=
  { h with running := false }

/-- Go `HTTPAdapter.Stop` (http.go:97-112): a no-op returning nil when not
running or the server pointer is nil; otherwise graceful shutdown, whose
result `shutdownErr` comes from the environment. -/
def httpStop (h : HTTPAdapter) (shutdownErr : Option String) :
    Option String × HTTPAdapter :=
  if !h.running || h.httpServer.isNone then
    (none, h)
  else
    (shutdownErr, { h with running := false })

/-- Go `HTTPAdapter.IsHealthy` (http.go:120-125). -/
def httpIsHealthy (h : HTTPAdapter) : Bool :=
  h.running && h.httpServer.isSome

/-- SSE transport configuration (struct `SSEConfig`, transport/sse.go). -/
structure SSEConfig where
  host : String
  port : Nat
  corsEnabled : Bool
  deriving DecidableEq, Repr

/-- Go `SSEAdapter` state (transport/sse.go:160-167). -/
structure SSEAdapter where
  running : Bool
  httpServer : Option GoHTTPServer
  config : SSEConfig
  deriving DecidableEq, Repr

/-- A fresh adapter as `NewSSEAdapter` builds it (sse.go:177-190). -/
def newSSEAdapter (cfg : SSEConfig) : SSEAdapter :=
  { running := false, httpServer := none, config := cfg }

/-- Go `SSEAdapter.Start` (sse.go:193-241): same shape as the HTTP adapter's. -/
def sseStart (s : SSEAdapter) : Option String × SSEAdapter :=
  if s.running then
    (some "SSE transport already running", s)
  else
    let addr := s.config.host ++ ":" ++ toString s.config.port
    (none, { s with running := true, httpServer := some { addr := addr } })

/-- The deferred handler of the SSE serving goroutine (sse.go:226-237). -/
def sseServeExit (s : SSEAdapter) : SSEAdapter :=
  { s with running := false }

/-- Go `SSEAdapter.Stop` (sse.go:244-259). -/
def sseStop (s : SSEAdapter) (shutdownErr : Option String) :
    Option String × SSEAdapter :=
  if !s.running || s.httpServer.isNone then
    (none, s)
  else
    (shutdownErr, { s with running := false })

/-- Go `SSEAdapter.IsHealthy` (sse.go:267-272). -/
def sseIsHealthy (s : SSEAdapter) : Bool :=
  s.running && s.httpServer.isSome

/-- A derived `context.Context`: only cancellation is observable. -/
structure GoContext where
  cancelled : Bool
  deriving DecidableEq, Repr

/-- Go `STDIOAdapter` state (transport/stdio.go:15-22): the running flag and the
(possibly nil) cancellable context created by `Start`. -/
structure STDIOAdapter where
  running : Bool
  ctx : Option GoContext
  deriving DecidableEq, Repr

/-- A fresh adapter as `NewSTDIOAdapter` builds it (stdio.go:25-35). -/
def newSTDIOAdapter : STDIOAdapter :=
  { running := false, ctx := none }

/-- Go `STDIOAdapter.Start` (stdio.go:38-65): fails if already running; otherwise
creates a cancellable context, sets `running`, launches the listen goroutine
and returns nil. -/
def stdioStart (s : STDIOAdapter) : Option String × STDIOAdapter :=
  if s.running then
    (some "STDIO transport already running", s)
  else
    (none, { running := true, ctx := some { cancelled := false } })

/-- The deferred handler of the listen goroutine (stdio.go:51-62). -/
def stdioServeExit (s : STDIOAdapter) : STDIOAdapter :=
  { s with running := false }

/-- Go `STDIOAdapter.Stop` (stdio.go:68-82): a no-op returning nil when not
running; otherwise cancels the context (if present) and resets the flag. -/
def stdioStop (s : STDIOAdapter) : Option String × STDIOAdapter :=
  if !s.running then
    (none, s)
  else
    (none, { running := false, ctx := s.ctx.map (fun _ => { cancelled := true }) })

/-- Go `STDIOAdapter.IsHealthy` (stdio.go:90-95): running, context present and
not yet cancelled (`ctx.Err() == nil`). -/
def stdioIsHealthy (s : STDIOAdapter) : Bool :=
  s.running && (match s.ctx with
                | none => false
                | some c => !c.cancelled)

/-- The metrics collector's state (struct `MetricsCollector`,
server/metrics.go:15-32; durations are nanosecond counts, system metrics are
out of scope). -/
structure MetricsState where
  requestCount : Nat
  errorCount : Nat
  toolCallCount : List (String × Nat)
  avgResponseTime : Nat
  responseTimes : List Nat
  maxResponseTime : Nat
  deriving DecidableEq, Repr

/-- Go `NewMetricsCollector` (metrics.go:35-41). -/
def newMetricsCollector : MetricsState :=
  { requestCount := 0, errorCount := 0, toolCallCount := [],
    avgResponseTime := 0, responseTimes := [], maxResponseTime := 0 }

/-- Increment a tool's call counter (`m.toolCallCount[toolName]++`). -/
def bumpCount : List (String × Nat) → String → List (String × Nat)
  | [], name => [(name, 1)]
  | (k, v) :: rest, name =>
    if k = name then (k, v + 1) :: rest else (k, v) :: bumpCount rest name

/-- The total of a list of durations, as the loop at metrics.go:69-72
accumulates it. -/
def totalDuration (l : List Nat) : Nat :=
  l.foldl (fun acc rt => acc + rt) 0

/-- Go `MetricsCollector.RecordRequest` (metrics.go:44-74): bump the counters,
append the duration, keep only the last 1000 response times, update the max,
and recompute the average as total divided by count (integer division, as for
Go's `time.Duration`). -/
def recordRequest (m : MetricsState) (duration : Nat) (toolName : String)
    (isError : Bool) : MetricsState :=
  let requestCount := m.requestCount + 1
  let errorCount := if isError then m.errorCount + 1 else m.errorCount
  let toolCallCount :=
    if toolName ≠ "" then bumpCount m.toolCallCount toolName else m.toolCallCount
  let appended := m.responseTimes ++ [duration]
  let responseTimes := if appended.length > 1000 then appended.drop 1 else appended
  let maxResponseTime :=
    if duration > m.maxResponseTime then duration else m.maxResponseTime
  { requestCount := requestCount, errorCount := errorCount,
    toolCallCount := toolCallCount, responseTimes := responseTimes,
    avgResponseTime := totalDuration responseTimes / responseTimes.length,
    maxResponseTime := maxResponseTime }

/-- Run a sequence of `RecordRequest` calls: each list entry is
(duration, tool name, isError). -/
def runRequests (m : MetricsState) : List (Nat × String × Bool) → MetricsState
  | [] => m
  | r :: rs => runRequests (recordRequest m r.1 r.2.1 r.2.2) rs

/-- The `n` most recent elements of a list. -/
def lastN {α : Type} (n : Nat) (l : List α) : List α :=
  l.drop (l.length - n)

/-! ### Helper lemmas on the association-list embedding of Go maps -/

theorem lookupName_eq_none_iff {α : Type} (l : List (String × α)) (k : String) :
    lookupName l k = none ↔ k ∉ l.map Prod.fst := by
  induction l with
  | nil => simp [lookupName]
  | cons p rest ih =>
    obtain ⟨k1, v⟩ := p
    by_cases hk : k1 = k
    · subst hk
      simp [lookupName]
    · rw [show lookupName ((k1, v) :: rest) k = lookupName rest k by simp [lookupName, hk]]
      rw [ih, List.map_cons, List.mem_cons]
      constructor
      · intro h2 h3
        rcases h3 with h3 | h3
        · exact hk h3.symm
        · exact h2 h3
      · intro h2 h3
        exact h2 (Or.inr h3)

theorem keysNodup_append_fresh {α : Type} (l : List (String × α)) (k : String) (v : α)
    (hl : keysNodup l) (hk : lookupName l k = none) :
    keysNodup (l ++ [(k, v)]) := by
  have hmem : k ∉ l.map Prod.fst := (lookupName_eq_none_iff l k).mp hk
  unfold keysNodup at hl ⊢
  rw [List.map_append]
  exact List.nodup_append.mpr
    ⟨hl, List.nodup_singleton k, fun a ha hb => by
      simp at hb
      subst hb
      exact hmem ha⟩

theorem lookupName_eraseName_self {α : Type} (l : List (String × α)) (k : String) :
    lookupName (eraseName l k) k = none := by
  induction l with
  | nil => simp [eraseName, lookupName]
  | cons p rest ih =>
    obtain ⟨k1, v⟩ := p
    by_cases hk : k1 = k
    · subst hk
      simpa [eraseName, lookupName] using ih
    · simpa [eraseName, lookupName, hk] using ih

/-! ### Concrete fixtures used by counterexamples and witnesses -/

/-- A dynamic-loading environment in which no unit can be opened. -/
def emptyWorld : PluginWorld :=
  { openUnit := fun _ => .error "no such file" }

/-- A registry with no tools and discovery disabled. -/
def emptyReg : Registry :=
  { tools := [], discoveryEnabled := false, scanInterval := 0,
    directories := [], discoveryRunning := false }

/-- A registry with discovery enabled and the periodic loop already running. -/
def busyReg : Registry :=
  { tools := [], discoveryEnabled := true, scanInterval := 30,
    directories := ["plugins"], discoveryRunning := true }

/-- A plain tool used to exercise the registry. -/
def toolA : MCPToolPlugin :=
  { name := "alpha", version := "1.0.0", description := "test tool",
    initHook := (none, [Event.toolInit "alpha"]),
    cleanupHook := (none, [Event.toolCleanup "alpha"]) }

/-- Manifest of the `echo` plugin (§8 scenario of the spec). -/
def echoMeta : PluginMetadata :=
  { name := "echo", version := "1.0.0", description := "", author := "",
    apiVersion := "", entryPoint := "echo", dependencies := [], permissions := [] }

/-- The `echo` plugin: both lifecycle hooks succeed. -/
def echoPlugin : DynamicPlugin :=
  { name := "echo", version := "1.0.0", description := "",
    initResult := none, shutdownResult := none }

/-- The adapter wrapping the loaded `echo` plugin. -/
def echoAdapter : DynamicPluginAdapter :=
  { plugin := echoPlugin, metadata := echoMeta }

/-- A manager state in which `echo` is discovered and currently loaded
(and registered). As in the source, the `plugins` map is empty: nothing
ever writes it. -/
def pmEcho : PluginManager :=
  { plugins := [], pluginPaths := [("echo", "plugins/echo")],
    registry := some { emptyReg with tools := [("echo", echoAdapter.toTool)] },
    baseDir := "plugins",
    discovered := [("echo", echoMeta)],
    loaded := [("echo", echoAdapter)] }

/-- Manifest of the `bad` plugin. -/
def badMeta : PluginMetadata :=
  { name := "bad", version := "1.0.0", description := "", author := "",
    apiVersion := "", entryPoint := "bad", dependencies := [], permissions := [] }

/-- A plugin whose `Shutdown()` hook fails. -/
def badPlugin : DynamicPlugin :=
  { name := "bad", version := "1.0.0", description := "",
    initResult := none, shutdownResult := some "boom" }

/-- The adapter wrapping the loaded `bad` plugin. -/
def badAdapter : DynamicPluginAdapter :=
  { plugin := badPlugin, metadata := badMeta }

/-- A manager state in which `bad` is discovered, loaded and registered. -/
def pmBad : PluginManager :=
  { plugins := [], pluginPaths := [("bad", "plugins/bad")],
    registry := some { emptyReg with tools := [("bad", badAdapter.toTool)] },
    baseDir := "plugins",
    discovered := [("bad", badMeta)],
    loaded := [("bad", badAdapter)] }

/-- Manifest whose `entry_point` differs from `<name>.so`. -/
def meta1 : PluginMetadata :=
  { name := "tool1", version := "2.0.0", description := "", author := "",
    apiVersion := "", entryPoint := "libtool1.so", dependencies := [], permissions := [] }

/-- A manager state in which `tool1` is discovered but not loaded. -/
def pmEntry : PluginManager :=
  { plugins := [], pluginPaths := [("tool1", "plugins/tool1")],
    registry := none, baseDir := "plugins",
    discovered := [("tool1", meta1)], loaded := [] }

/-- Manifest of the `dup` plugin. -/
def dupMeta : PluginMetadata :=
  { name := "dup", version := "1.0.0", description := "", author := "",
    apiVersion := "", entryPoint := "dup", dependencies := [], permissions := [] }

/-- A plugin whose name collides with an already-registered tool. -/
def dupPlugin : DynamicPlugin :=
  { name := "dup", version := "1.0.0", description := "",
    initResult := none, shutdownResult := none }

/-- A tool occupying the name `dup` in the registry. -/
def dupTool : MCPToolPlugin :=
  { name := "dup", version := "0.9.0", description := "occupies the name",
    initHook := (none, []), cleanupHook := (none, []) }

/-- An opened unit whose every symbol resolves to the `dup` plugin directly. -/
def dupHandle : PluginHandle :=
  { symLookup := fun _ => .ok (.direct dupPlugin) }

/-- A dynamic-loading environment in which every path opens to `dupHandle`. -/
def dupWorld : PluginWorld :=
  { openUnit := fun _ => .ok dupHandle }

/-- A manager state in which `dup` is discovered, not loaded, but the registry
already holds a tool named `dup`. -/
def pmDup : PluginManager :=
  { plugins := [], pluginPaths := [("dup", "plugins/dup")],
    registry := some { emptyReg with tools := [("dup", dupTool)] },
    baseDir := "plugins",
    discovered := [("dup", dupMeta)], loaded := [] }

/-- A default HTTP transport configuration (factory defaults,
transport/factory.go:69-73). -/
def cfg0 : HTTPConfig :=
  { host := "localhost", port := 26842, timeout := 30000000000 }

/-- A default SSE transport configuration (factory defaults,
transport/factory.go:59-63). -/
def scfg0 : SSEConfig :=
  { host := "localhost", port := 26841, corsEnabled := true }

/-- An HTTP adapter in the running state. -/
def runHTTP : HTTPAdapter :=
  { running := true, httpServer := some { addr := "localhost:26842" }, config := cfg0 }

/-- An SSE adapter in the running state. -/
def runSSE : SSEAdapter :=
  { running := true, httpServer := some { addr := "localhost:26841" }, config := scfg0 }

/-- A STDIO adapter in the running state. -/
def runSTDIO : STDIOAdapter :=
  { running := true, ctx := some { cancelled := false } }

/-! ### Claim theorems -/

/-- C1: `Registry.RegisterTool(tool)` fails if the tool is nil or its `Name()`
is empty, fails with a duplicate-name error if the name is already registered,
otherwise invokes the tool's `Initialize` hook and inserts the tool into the
catalogue only if `Initialize` succeeds; at most one entry per name is
preserved, and a failed `RegisterTool` leaves the catalogue unchanged. -/
theorem registerTool_spec (r : Registry) (t : MCPToolPlugin)
    (hnodup : keysNodup r.tools) :
    registerTool r none = (some "tool cannot be nil", r, [])
    ∧ (t.name = "" →
        registerTool r (some t) = (some "tool name cannot be empty", r, []))
    ∧ (t.name ≠ "" → (lookupName r.tools t.name).isSome →
        registerTool r (some t) = (some ("tool already registered: " ++ t.name), r, []))
    ∧ (t.name ≠ "" → lookupName r.tools t.name = none →
        (registerTool r (some t)).2.2 = t.initHook.2
        ∧ (t.initHook.1 = none →
            (registerTool r (some t)).2.1.tools = r.tools ++ [(t.name, t)])
        ∧ (∀ e, t.initHook.1 = some e → (registerTool r (some t)).2.1 = r))
    ∧ keysNodup (registerTool r (some t)).2.1.tools
    ∧ (∀ e, (registerTool r (some t)).1 = some e → (registerTool r (some t)).2.1 = r) := by
  rcases hinit : t.initHook with ⟨ir, evs⟩
  refine ⟨rfl, ?_, ?_, ?_, ?_, ?_⟩
  · intro h
    simp [registerTool, h]
  · intro hne hdup
    simp [registerTool, hne, hdup]
  · intro hne hfresh
    cases ir with
    | none =>
      refine ⟨?_, ?_, ?_⟩
      · simp [registerTool, hne, hfresh, hinit]
      · intro _
        simp [registerTool, hne, hfresh, hinit]
      · intro e he
        simp at he
    | some e0 =>
      refine ⟨?_, ?_, ?_⟩
      · simp [registerTool, hne, hfresh, hinit]
      · intro hno
        simp at hno
      · intro e _
        simp [registerTool, hne, hfresh, hinit]
  · by_cases hne : t.name = ""
    · simpa [registerTool, hne] using hnodup
    · by_cases hdup : (lookupName r.tools t.name).isSome
      · simpa [registerTool, hne, hdup] using hnodup
      · have hfresh : lookupName r.tools t.name = none := by
          cases hl : lookupName r.tools t.name with
          | none => rfl
          | some v => rw [hl] at hdup; simp at hdup
        cases ir with
        | none =>
          have : (registerTool r (some t)).2.1.tools = r.tools ++ [(t.name, t)] := by
            simp [registerTool, hne, hfresh, hinit]
          rw [this]
          exact keysNodup_append_fresh r.tools t.name t hnodup hfresh
        | some e0 =>
          simpa [registerTool, hne, hfresh, hinit] using hnodup
  · intro e he
    by_cases hne : t.name = ""
    · simp [registerTool, hne]
    · by_cases hdup : (lookupName r.tools t.name).isSome
      · simp [registerTool, hne, hdup]
      · have hfresh : lookupName r.tools t.name = none := by
          cases hl : lookupName r.tools t.name with
          | none => rfl
          | some v => rw [hl] at hdup; simp at hdup
        cases ir with
        | none =>
          rw [show (registerTool r (some t)).1 = none by
            simp [registerTool, hne, hfresh, hinit]] at he
          simp at he
        | some e0 =>
          simp [registerTool, hne, hfresh, hinit]

/-- Witness for C1 at concrete inputs: an empty registry and the tool `alpha`. -/
theorem registerTool_spec_witness :
    registerTool emptyReg none = (some "tool cannot be nil", emptyReg, [])
    ∧ (registerTool emptyReg (some toolA)).2.1.tools = emptyReg.tools ++ [("alpha", toolA)]
    ∧ keysNodup (registerTool emptyReg (some toolA)).2.1.tools := by
  have h := registerTool_spec emptyReg toolA (by simp [keysNodup, emptyReg])
  refine ⟨h.1, ?_, h.2.2.2.2.1⟩
  have h4 := h.2.2.2.1 (by simp [toolA]) (by simp [emptyReg, lookupName])
  exact h4.2.1 rfl

/-- C2: evaluation of `ReloadPlugin` at a state whose plugin `echo` is
currently loaded. Because `ReloadPlugin` consults `pm.plugins` — a map that
`LoadPlugin` never writes (it records into `pm.loaded`) — the unload branch is
skipped, `LoadPlugin` is attempted directly and fails with "already loaded",
no shutdown hook runs (the trace is empty) and the state is unchanged. This
contradicts both the claim and the function's own documented intent of
"unload then load". -/
theorem reloadPlugin_loaded_plugin_fails :
    reloadPlugin emptyWorld pmEcho "echo"
      = (some "plugin echo already loaded", pmEcho, [])
    ∧ lookupName pmEcho.loaded "echo" = some echoAdapter
    ∧ pmEcho.plugins = [] := by
  refine ⟨?_, by decide, rfl⟩
  decide

/-- C3 counterexample: unloading the loaded plugin `bad`, whose `Shutdown()`
hook fails, propagates the shutdown error but does NOT remove the bookkeeping
entry — the `delete` sits below the early `return` taken on shutdown failure,
so the name stays in the loaded set, contrary to the claim. -/
theorem unloadPlugin_shutdown_failure_keeps_entry :
    (unloadPlugin pmBad "bad").1 = some "failed to shutdown plugin bad: boom"
    ∧ lookupName (unloadPlugin pmBad "bad").2.1.loaded "bad" = some badAdapter := by
  constructor
  · decide
  · decide

/-- C3 amended: for a loaded plugin, `UnloadPlugin` removes the bookkeeping
entry only when the shutdown hook succeeds; when shutdown fails, the failure
is propagated as an error and the entry remains in the loaded set. -/
theorem unloadPlugin_spec (pm : PluginManager) (name : String)
    (a : DynamicPluginAdapter) (h : lookupName pm.loaded name = some a) :
    (a.plugin.shutdownResult = none →
       (unloadPlugin pm name).1 = none
       ∧ lookupName (unloadPlugin pm name).2.1.loaded name = none)
    ∧ (∀ e, a.plugin.shutdownResult = some e →
       (unloadPlugin pm name).1 = some ("failed to shutdown plugin " ++ name ++ ": " ++ e)
       ∧ (unloadPlugin pm name).2.1.loaded = pm.loaded) := by
  cases hr : pm.registry with
  | none =>
    constructor
    · intro hs
      constructor
      · simp [unloadPlugin, h, hr, DynamicPlugin.runShutdown, hs]
      · simp [unloadPlugin, h, hr, DynamicPlugin.runShutdown, hs,
              lookupName_eraseName_self]
    · intro e hs
      constructor
      · simp [unloadPlugin, h, hr, DynamicPlugin.runShutdown, hs]
      · simp [unloadPlugin, h, hr, DynamicPlugin.runShutdown, hs]
  | some reg =>
    constructor
    · intro hs
      constructor
      · simp [unloadPlugin, h, hr, DynamicPlugin.runShutdown, hs]
      · simp [unloadPlugin, h, hr, DynamicPlugin.runShutdown, hs,
              lookupName_eraseName_self]
    · intro e hs
      constructor
      · simp [unloadPlugin, h, hr, DynamicPlugin.runShutdown, hs]
      · simp [unloadPlugin, h, hr, DynamicPlugin.runShutdown, hs]

/-- Witness for the amended C3 at a concrete input: unloading `echo`, whose
shutdown succeeds, returns nil and frees the name. -/
theorem unloadPlugin_spec_witness :
    (unloadPlugin pmEcho "echo").1 = none
    ∧ lookupName (unloadPlugin pmEcho "echo").2.1.loaded "echo" = none := by
  have h := unloadPlugin_spec pmEcho "echo" echoAdapter (by decide)
  exact h.1 rfl

/-- C4 counterexample: on a fresh HTTP adapter whose configured port is
already bound by another process, `Start()` still returns nil — the bind
outcome is never consulted synchronously, since `ListenAndServe` runs in a
background goroutine — and immediately after `Start()` returns,
`IsHealthy()` is true, not false. -/
theorem httpStart_no_sync_bind_error_cex :
    (httpStart (newHTTPAdapter cfg0)).1 = none
    ∧ httpIsHealthy (httpStart (newHTTPAdapter cfg0)).2 = true := by
  constructor
  · rfl
  · rfl

/-- C4 amended: for an HTTP adapter that is not running, `Start()` returns
success synchronously regardless of the bind outcome; the bind failure only
surfaces in the serving goroutine, whose deferred handler resets `running`
when `ListenAndServe` returns, after which `IsHealthy()` is false and a
subsequent `Stop()` is a safe no-op returning nil. -/
theorem httpStart_async_bind_failure (h : HTTPAdapter) (hr : h.running = false) :
    (httpStart h).1 = none
    ∧ httpIsHealthy (httpServeExit (httpStart h).2) = false
    ∧ (∀ se, httpStop (httpServeExit (httpStart h).2) se
        = (none, httpServeExit (httpStart h).2)) := by
  refine ⟨?_, ?_, ?_⟩
  · simp [httpStart, hr]
  · simp [httpIsHealthy, httpServeExit]
  · intro se
    simp [httpStop, httpServeExit]

/-- Witness for the amended C4 at a concrete input: a fresh adapter with the
factory's default HTTP configuration. -/
theorem httpStart_async_bind_failure_witness :
    (httpStart (newHTTPAdapter cfg0)).1 = none
    ∧ httpIsHealthy (httpServeExit (httpStart (newHTTPAdapter cfg0)).2) = false
    ∧ httpStop (httpServeExit (httpStart (newHTTPAdapter cfg0)).2) none
        = (none, httpServeExit (httpStart (newHTTPAdapter cfg0)).2) := by
  have h := httpStart_async_bind_failure (newHTTPAdapter cfg0) rfl
  exact ⟨h.1, h.2.1, h.2.2 none⟩

/-- C5: in `LoadPlugin`, when the capability's `Initialize` hook succeeded but
`Registry.RegisterTool` then fails, the manager invokes the capability's
`Shutdown` hook (it appears in the trace) before propagating the registration
error, and no loaded entry is recorded for the name. -/
theorem loadPlugin_register_failure_rollback
    (w : PluginWorld) (pm : PluginManager) (name dir : String)
    (info : PluginMetadata) (hdl : PluginHandle) (p : DynamicPlugin)
    (reg : Registry) (e : String)
    (hd : lookupName pm.discovered name = some info)
    (hl : lookupName pm.loaded name = none)
    (hp : lookupName pm.pluginPaths name = some dir)
    (ho : w.openUnit (dir ++ "/" ++ name ++ ".so") = .ok hdl)
    (hs : hdl.symLookup "Plugin" = .ok (.direct p))
    (hi : p.initResult = none)
    (hr : pm.registry = some reg)
    (hf : (registerTool reg (some (DynamicPluginAdapter.mk p info).toTool)).1 = some e) :
    (loadPlugin w pm name).1
      = some ("failed to register plugin " ++ name ++ " with registry: " ++ e)
    ∧ (loadPlugin w pm name).2.1.loaded = pm.loaded
    ∧ Event.pluginShutdown p.name ∈ (loadPlugin w pm name).2.2 := by
  rcases hreg : registerTool reg (some (DynamicPluginAdapter.mk p info).toTool)
    with ⟨res, reg1, revs⟩
  rw [hreg] at hf
  simp only at hf
  subst hf
  refine ⟨?_, ?_, ?_⟩
  · simp [loadPlugin, hd, hl, hp, ho, hs, loadPluginResolved,
          DynamicPlugin.runInit, hi, hr, hreg]
  · simp [loadPlugin, hd, hl, hp, ho, hs, loadPluginResolved,
          DynamicPlugin.runInit, hi, hr, hreg]
  · simp [loadPlugin, hd, hl, hp, ho, hs, loadPluginResolved,
          DynamicPlugin.runInit, hi, hr, hreg, DynamicPlugin.runShutdown]

/-- Witness for C5 at a concrete input: loading `dup` into a registry that
already holds a tool named `dup`. -/
theorem loadPlugin_register_failure_rollback_witness :
    (loadPlugin dupWorld pmDup "dup").1
      = some "failed to register plugin dup with registry: tool already registered: dup"
    ∧ (loadPlugin dupWorld pmDup "dup").2.1.loaded = pmDup.loaded
    ∧ Event.pluginShutdown "dup" ∈ (loadPlugin dupWorld pmDup "dup").2.2 := by
  have h := loadPlugin_register_failure_rollback dupWorld pmDup "dup" "plugins/dup"
    dupMeta dupHandle dupPlugin { emptyReg with tools := [("dup", dupTool)] }
    "tool already registered: dup" rfl rfl rfl rfl rfl rfl rfl (by decide)
  exact h

/-- C6 counterexample: for the discovered plugin `tool1` whose manifest names
`libtool1.so` as its `entry_point`, `LoadPlugin` opens
`plugins/tool1/tool1.so` — the path is formed from the plugin NAME plus
`.so`, not from the manifest's `entry_point` field, contrary to the claim. -/
theorem loadPlugin_ignores_entry_point :
    (lookupName pmEntry.discovered "tool1").map PluginMetadata.entryPoint
      = some "libtool1.so"
    ∧ (loadPlugin emptyWorld pmEntry "tool1").2.2
      = [Event.opened "plugins/tool1/tool1.so"]
    ∧ ("plugins/tool1/tool1.so" : String) ≠ "plugins/tool1/libtool1.so" := by
  refine ⟨by decide, ?_, by decide⟩
  decide

/-- Registering a `DynamicPluginAdapter` never emits hook events: the
adapter's `Initialize` is a no-op with an empty trace, so whatever branch
`RegisterTool` takes, its trace is empty. -/
theorem registerTool_adapter_trace (reg : Registry) (a : DynamicPluginAdapter) :
    (registerTool reg (some a.toTool)).2.2 = [] := by
  simp only [registerTool, DynamicPluginAdapter.toTool]
  by_cases h1 : a.plugin.name = ""
  · simp [h1]
  · by_cases h2 : (lookupName reg.tools a.plugin.name).isSome
    · simp [h1, h2]
    · simp [h1, h2]

/-- Whether an event records an invocation of a `DynamicPlugin`'s
`Initialize()` hook. -/
def isPluginInitEvent : Event → Bool
  | .pluginInit _ => true
  | _ => false

/-- The trace of the resolved tail of `LoadPlugin` extends the trace
accumulated before it. -/
theorem loadPluginResolved_trace (pm : PluginManager) (name : String)
    (info : PluginMetadata) (p : DynamicPlugin) (tr : List Event) :
    ∃ rest, (loadPluginResolved pm name info p tr).2.2 = tr ++ rest := by
  rcases hir : p.initResult with _ | e0
  · cases hreg : pm.registry with
    | none =>
      exact ⟨[Event.pluginInit p.name],
        by simp [loadPluginResolved, DynamicPlugin.runInit, hir, hreg]⟩
    | some reg =>
      rcases hr2 : registerTool reg (some (DynamicPluginAdapter.mk p info).toTool)
        with ⟨res, reg1, revs⟩
      cases res with
      | none =>
        exact ⟨Event.pluginInit p.name :: revs,
          by simp [loadPluginResolved, DynamicPlugin.runInit, hir, hreg, hr2]⟩
      | some e =>
        exact ⟨Event.pluginInit p.name :: (revs ++ [Event.pluginShutdown p.name]),
          by simp [loadPluginResolved, DynamicPlugin.runInit, hir, hreg, hr2,
                   DynamicPlugin.runShutdown]⟩
  · exact ⟨[Event.pluginInit p.name],
      by simp [loadPluginResolved, DynamicPlugin.runInit, hir]⟩

/-- The resolved tail of `LoadPlugin` always invokes the plugin's
`Initialize()` hook: the event is in its trace. -/
theorem loadPluginResolved_init_mem (pm : PluginManager) (name : String)
    (info : PluginMetadata) (p : DynamicPlugin) (tr : List Event) :
    Event.pluginInit p.name ∈ (loadPluginResolved pm name info p tr).2.2 := by
  rcases hir : p.initResult with _ | e0
  · cases hreg : pm.registry with
    | none => simp [loadPluginResolved, DynamicPlugin.runInit, hir, hreg]
    | some reg =>
      rcases hr2 : registerTool reg (some (DynamicPluginAdapter.mk p info).toTool)
        with ⟨res, reg1, revs⟩
      cases res <;>
        simp [loadPluginResolved, DynamicPlugin.runInit, hir, hreg, hr2,
              DynamicPlugin.runShutdown]
  · simp [loadPluginResolved, DynamicPlugin.runInit, hir]

/-- The resolved tail of `LoadPlugin` invokes the plugin's `Initialize()`
hook exactly once more than the trace before it: the adapter's no-op
`Initialize` inside `RegisterTool` adds nothing, and the rollback
`Shutdown` is not an init event. -/
theorem loadPluginResolved_countP (pm : PluginManager) (name : String)
    (info : PluginMetadata) (p : DynamicPlugin) (tr : List Event) :
    (loadPluginResolved pm name info p tr).2.2.countP isPluginInitEvent
      = tr.countP isPluginInitEvent + 1 := by
  rcases hir : p.initResult with _ | e0
  · cases hreg : pm.registry with
    | none =>
      simp [loadPluginResolved, DynamicPlugin.runInit, hir, hreg,
            List.countP_append, List.countP_cons, isPluginInitEvent]
    | some reg =>
      rcases hr2 : registerTool reg (some (DynamicPluginAdapter.mk p info).toTool)
        with ⟨res, reg1, revs⟩
      have hrevs : revs = [] := by
        have htr := registerTool_adapter_trace reg (DynamicPluginAdapter.mk p info)
        rw [hr2] at htr
        exact htr
      subst hrevs
      cases res <;>
        simp [loadPluginResolved, DynamicPlugin.runInit, hir, hreg, hr2,
              DynamicPlugin.runShutdown, List.countP_append, List.countP_cons,
              isPluginInitEvent]
  · simp [loadPluginResolved, DynamicPlugin.runInit, hir,
          List.countP_append, List.countP_cons, isPluginInitEvent]

/-- C6 amended: for a discovered, not-yet-loaded plugin name, `LoadPlugin`
opens the dynamically loadable unit at `<name>.so` inside the plugin's
directory (the manifest's `entry_point` is validated at discovery but not
used to form the path), resolves the single expected exported symbol
`Plugin`, accepts either a direct `DynamicPlugin` value or a non-nil pointer
to one, and fails with a type-mismatch error for a nil pointer or any other
symbol type. -/
theorem loadPlugin_open_resolve_spec
    (w : PluginWorld) (pm : PluginManager) (name dir : String)
    (info : PluginMetadata) (hdl : PluginHandle)
    (hd : lookupName pm.discovered name = some info)
    (hl : lookupName pm.loaded name = none)
    (hp : lookupName pm.pluginPaths name = some dir)
    (ho : w.openUnit (dir ++ "/" ++ name ++ ".so") = .ok hdl) :
    (∃ rest, (loadPlugin w pm name).2.2
        = Event.opened (dir ++ "/" ++ name ++ ".so") :: Event.symLookup "Plugin" :: rest)
    ∧ (∀ p, hdl.symLookup "Plugin" = .ok (.ptr (some p)) →
        Event.pluginInit p.name ∈ (loadPlugin w pm name).2.2)
    ∧ (∀ p, hdl.symLookup "Plugin" = .ok (.direct p) →
        Event.pluginInit p.name ∈ (loadPlugin w pm name).2.2)
    ∧ (hdl.symLookup "Plugin" = .ok (.ptr none) →
        (loadPlugin w pm name).1 = some ("plugin " ++ name
          ++ " does not implement DynamicPlugin interface (got *plugin.DynamicPlugin)"))
    ∧ (∀ t, hdl.symLookup "Plugin" = .ok (.other t) →
        (loadPlugin w pm name).1 = some ("plugin " ++ name
          ++ " does not implement DynamicPlugin interface (got " ++ t ++ ")")) := by
  refine ⟨?_, ?_, ?_, ?_, ?_⟩
  · rcases hsym : hdl.symLookup "Plugin" with e | sym
    · exact ⟨[], by simp [loadPlugin, hd, hl, hp, ho, hsym]⟩
    · cases sym with
      | ptr po =>
        cases po with
        | none => exact ⟨[], by simp [loadPlugin, hd, hl, hp, ho, hsym]⟩
        | some p =>
          obtain ⟨rest, hrest⟩ := loadPluginResolved_trace pm name info p
            [Event.opened (dir ++ "/" ++ name ++ ".so"), Event.symLookup "Plugin"]
          refine ⟨rest, ?_⟩
          rw [show (loadPlugin w pm name).2.2
              = (loadPluginResolved pm name info p
                  [Event.opened (dir ++ "/" ++ name ++ ".so"),
                   Event.symLookup "Plugin"]).2.2 by
            simp [loadPlugin, hd, hl, hp, ho, hsym]]
          rw [hrest]
          simp
      | direct p =>
        obtain ⟨rest, hrest⟩ := loadPluginResolved_trace pm name info p
          [Event.opened (dir ++ "/" ++ name ++ ".so"), Event.symLookup "Plugin"]
        refine ⟨rest, ?_⟩
        rw [show (loadPlugin w pm name).2.2
            = (loadPluginResolved pm name info p
                [Event.opened (dir ++ "/" ++ name ++ ".so"),
                 Event.symLookup "Plugin"]).2.2 by
          simp [loadPlugin, hd, hl, hp, ho, hsym]]
        rw [hrest]
        simp
      | other t => exact ⟨[], by simp [loadPlugin, hd, hl, hp, ho, hsym]⟩
  · intro p hsym
    have hm := loadPluginResolved_init_mem pm name info p
      [Event.opened (dir ++ "/" ++ name ++ ".so"), Event.symLookup "Plugin"]
    rw [show (loadPlugin w pm name).2.2
        = (loadPluginResolved pm name info p
            [Event.opened (dir ++ "/" ++ name ++ ".so"),
             Event.symLookup "Plugin"]).2.2 by
      simp [loadPlugin, hd, hl, hp, ho, hsym]]
    exact hm
  · intro p hsym
    have hm := loadPluginResolved_init_mem pm name info p
      [Event.opened (dir ++ "/" ++ name ++ ".so"), Event.symLookup "Plugin"]
    rw [show (loadPlugin w pm name).2.2
        = (loadPluginResolved pm name info p
            [Event.opened (dir ++ "/" ++ name ++ ".so"),
             Event.symLookup "Plugin"]).2.2 by
      simp [loadPlugin, hd, hl, hp, ho, hsym]]
    exact hm
  · intro hsym
    rw [show (loadPlugin w pm name).1
        = some ("plugin " ++ name ++ " does not implement DynamicPlugin interface (got "
                ++ "*plugin.DynamicPlugin" ++ ")") by
      simp [loadPlugin, hd, hl, hp, ho, hsym, PluginSym.typeName]]
    simp [String.append_assoc]
  · intro t hsym
    simp [loadPlugin, hd, hl, hp, ho, hsym, PluginSym.typeName]

/-- Witness for the amended C6 at a concrete input: loading `dup`, whose unit
opens and resolves to a direct `DynamicPlugin` value. -/
theorem loadPlugin_open_resolve_spec_witness :
    (∃ rest, (loadPlugin dupWorld pmDup "dup").2.2
        = Event.opened ("plugins/dup" ++ "/" ++ "dup" ++ ".so")
          :: Event.symLookup "Plugin" :: rest)
    ∧ Event.pluginInit "dup" ∈ (loadPlugin dupWorld pmDup "dup").2.2 := by
  have h := loadPlugin_open_resolve_spec dupWorld pmDup "dup" "plugins/dup"
    dupMeta dupHandle rfl rfl rfl rfl
  exact ⟨h.1, h.2.2.1 dupPlugin rfl⟩

/-- C7: for each transport adapter (stdio, sse, http), `Start()` on a running
adapter returns an "already running" error leaving the state untouched, and
`Stop()` on a non-running adapter (including before any `Start()`) is a no-op
returning nil with health false. -/
theorem transport_start_stop_spec (h : HTTPAdapter) (s : SSEAdapter)
    (d : STDIOAdapter) (se1 se2 : Option String) :
    (h.running = true → httpStart h = (some "HTTP transport already running", h))
    ∧ (h.running = false → httpStop h se1 = (none, h) ∧ httpIsHealthy h = false)
    ∧ (s.running = true → sseStart s = (some "SSE transport already running", s))
    ∧ (s.running = false → sseStop s se2 = (none, s) ∧ sseIsHealthy s = false)
    ∧ (d.running = true → stdioStart d = (some "STDIO transport already running", d))
    ∧ (d.running = false → stdioStop d = (none, d) ∧ stdioIsHealthy d = false) := by
  refine ⟨?_, ?_, ?_, ?_, ?_, ?_⟩
  · intro hr
    simp [httpStart, hr]
  · intro hr
    exact ⟨by simp [httpStop, hr], by simp [httpIsHealthy, hr]⟩
  · intro hr
    simp [sseStart, hr]
  · intro hr
    exact ⟨by simp [sseStop, hr], by simp [sseIsHealthy, hr]⟩
  · intro hr
    simp [stdioStart, hr]
  · intro hr
    exact ⟨by simp [stdioStop, hr], by simp [stdioIsHealthy, hr]⟩

/-- Witness for C7 at concrete inputs: fresh (never started) adapters and
running adapters of each protocol. -/
theorem transport_start_stop_spec_witness :
    (httpStop (newHTTPAdapter cfg0) none = (none, newHTTPAdapter cfg0)
      ∧ httpIsHealthy (newHTTPAdapter cfg0) = false)
    ∧ (sseStop (newSSEAdapter scfg0) none = (none, newSSEAdapter scfg0)
      ∧ sseIsHealthy (newSSEAdapter scfg0) = false)
    ∧ (stdioStop newSTDIOAdapter = (none, newSTDIOAdapter)
      ∧ stdioIsHealthy newSTDIOAdapter = false)
    ∧ httpStart runHTTP = (some "HTTP transport already running", runHTTP)
    ∧ sseStart runSSE = (some "SSE transport already running", runSSE)
    ∧ stdioStart runSTDIO = (some "STDIO transport already running", runSTDIO) := by
  have hfresh := transport_start_stop_spec (newHTTPAdapter cfg0) (newSSEAdapter scfg0)
    newSTDIOAdapter none none
  have hrun := transport_start_stop_spec runHTTP runSSE runSTDIO none none
  exact ⟨hfresh.2.1 rfl, hfresh.2.2.2.1 rfl, hfresh.2.2.2.2.2 rfl,
         hrun.1 rfl, hrun.2.2.1 rfl, hrun.2.2.2.2.1 rfl⟩

/-- C8: when the registry's discovery-enabled flag is false,
`StartPeriodicDiscovery()` returns nil without changing any state (in
particular without setting the running flag); conversely the "periodic
discovery already running" error implies discovery is enabled (and the loop
was running). -/
theorem startPeriodicDiscovery_disabled_spec (r : Registry) :
    (r.discoveryEnabled = false → startPeriodicDiscovery r = (none, r))
    ∧ ((startPeriodicDiscovery r).1 = some "periodic discovery already running" →
        r.discoveryEnabled = true ∧ r.discoveryRunning = true) := by
  constructor
  · intro hd
    simp [startPeriodicDiscovery, hd]
  · intro herr
    cases he : r.discoveryEnabled with
    | false =>
      rw [show (startPeriodicDiscovery r).1 = none by
        simp [startPeriodicDiscovery, he]] at herr
      simp at herr
    | true =>
      cases hrun : r.discoveryRunning with
      | false =>
        rw [show (startPeriodicDiscovery r).1 = none by
          simp [startPeriodicDiscovery, he, hrun]] at herr
        simp at herr
      | true => exact ⟨rfl, rfl⟩

/-- Witness for C8 at concrete inputs: a registry with discovery disabled,
and one with discovery enabled and the loop already running. -/
theorem startPeriodicDiscovery_disabled_spec_witness :
    startPeriodicDiscovery emptyReg = (none, emptyReg)
    ∧ busyReg.discoveryEnabled = true ∧ busyReg.discoveryRunning = true := by
  have h1 := startPeriodicDiscovery_disabled_spec emptyReg
  have h2 := startPeriodicDiscovery_disabled_spec busyReg
  exact ⟨h1.1 rfl, h2.2 (by decide)⟩

/-- C9: the adapter wrapping a dynamically loaded plugin has an `Initialize`
that returns nil without invoking the underlying plugin (empty trace) and a
`Cleanup` that delegates to the plugin's `Shutdown`; consequently, during a
`LoadPlugin` whose symbol resolves, the underlying plugin's `Initialize` hook
runs exactly once — invoked by the manager, not again by
`Registry.RegisterTool`. -/
theorem adapter_noop_init_spec (a : DynamicPluginAdapter)
    (w : PluginWorld) (pm : PluginManager) (name dir : String)
    (info : PluginMetadata) (hdl : PluginHandle) (p : DynamicPlugin)
    (hd : lookupName pm.discovered name = some info)
    (hl : lookupName pm.loaded name = none)
    (hp : lookupName pm.pluginPaths name = some dir)
    (ho : w.openUnit (dir ++ "/" ++ name ++ ".so") = .ok hdl)
    (hs : hdl.symLookup "Plugin" = .ok (.direct p)) :
    a.toTool.initHook = (none, [])
    ∧ a.toTool.cleanupHook = (a.plugin.shutdownResult, [Event.pluginShutdown a.plugin.name])
    ∧ (loadPlugin w pm name).2.2.countP isPluginInitEvent = 1 := by
  refine ⟨rfl, rfl, ?_⟩
  have hc := loadPluginResolved_countP pm name info p
    [Event.opened (dir ++ "/" ++ name ++ ".so"), Event.symLookup "Plugin"]
  rw [show (loadPlugin w pm name).2.2
      = (loadPluginResolved pm name info p
          [Event.opened (dir ++ "/" ++ name ++ ".so"),
           Event.symLookup "Plugin"]).2.2 by
    simp [loadPlugin, hd, hl, hp, ho, hs]]
  rw [hc]
  simp [List.countP_cons, isPluginInitEvent]

/-- Witness for C9 at a concrete input: the `echo` adapter, and the load of
`dup` (whose unit resolves to a direct value). -/
theorem adapter_noop_init_spec_witness :
    echoAdapter.toTool.initHook = (none, [])
    ∧ echoAdapter.toTool.cleanupHook = (none, [Event.pluginShutdown "echo"])
    ∧ (loadPlugin dupWorld pmDup "dup").2.2.countP isPluginInitEvent = 1 := by
  have h := adapter_noop_init_spec echoAdapter dupWorld pmDup "dup" "plugins/dup"
    dupMeta dupHandle dupPlugin rfl rfl rfl rfl rfl
  exact h

/-- The window invariant tying a collector state to the full history `ds` of
durations recorded so far: the retained response times are the (at most 1000)
most recent ones. -/
abbrev metricsWindow (st : MetricsState) (ds : List Nat) : Prop :=
  st.responseTimes = lastN 1000 ds ∧ st.responseTimes.length ≤ 1000

/-- One list step of the sliding window: appending and trimming to `n`
elements computes the `n` most recent elements of the extended history. -/
theorem window_step (n : Nat) (hn : 0 < n) (rts ds : List Nat) (d : Nat)
    (hr : rts = lastN n ds) (hlen : rts.length ≤ n) :
    (if (rts ++ [d]).length > n then (rts ++ [d]).drop 1 else rts ++ [d])
      = lastN n (ds ++ [d])
    ∧ (if (rts ++ [d]).length > n then (rts ++ [d]).drop 1 else rts ++ [d]).length
      ≤ n := by
  subst hr
  have hRlen : (lastN n ds).length = ds.length - (ds.length - n) := by
    simp [lastN]
  by_cases hc : ((lastN n ds) ++ [d]).length > n
  · have hc2 := hc
    rw [List.length_append, hRlen] at hc2
    simp only [List.length_cons, List.length_nil] at hc2
    have hL : n ≤ ds.length := by omega
    rw [if_pos hc]
    constructor
    · unfold lastN
      rw [List.length_append]
      simp only [List.length_cons, List.length_nil]
      rw [List.drop_append_of_le_length (by omega : ds.length + (0 + 1) - n ≤ ds.length)]
      rw [List.drop_append_of_le_length
        (by rw [List.length_drop]; omega : 1 ≤ (ds.drop (ds.length - n)).length)]
      rw [List.drop_drop]
      have h3 : ds.length - n + 1 = ds.length + (0 + 1) - n := by omega
      rw [h3]
    · rw [List.length_drop, List.length_append, hRlen]
      simp only [List.length_cons, List.length_nil]
      omega
  · have hc2 := hc
    rw [List.length_append, hRlen] at hc2
    simp only [List.length_cons, List.length_nil] at hc2
    have hL : ds.length < n := by omega
    rw [if_neg hc]
    constructor
    · unfold lastN
      rw [List.length_append]
      simp only [List.length_cons, List.length_nil]
      have e1 : ds.length - n = 0 := by omega
      have e2 : ds.length + (0 + 1) - n = 0 := by omega
      rw [e1, e2, List.drop_zero, List.drop_zero]
    · rw [List.length_append, hRlen]
      simp only [List.length_cons, List.length_nil]
      omega

/-- One `RecordRequest` call preserves the window invariant, extending the
history by the recorded duration. -/
theorem recordRequest_window (st : MetricsState) (ds : List Nat) (d : Nat)
    (tn : String) (ie : Bool) (h : metricsWindow st ds) :
    metricsWindow (recordRequest st d tn ie) (ds ++ [d]) := by
  obtain ⟨hrts, hlen⟩ := h
  have hstep := window_step 1000 (by omega) st.responseTimes ds d hrts hlen
  exact ⟨hstep.1, hstep.2⟩

/-- Any run of `RecordRequest` calls preserves the window invariant. -/
theorem runRequests_window (reqs : List (Nat × String × Bool)) (st : MetricsState)
    (ds : List Nat) (h : metricsWindow st ds) :
    metricsWindow (runRequests st reqs) (ds ++ reqs.map Prod.fst) := by
  induction reqs generalizing st ds with
  | nil => simpa [runRequests] using h
  | cons r rs ih =>
    have h1 := recordRequest_window st ds r.1 r.2.1 r.2.2 h
    have h2 := ih (recordRequest st r.1 r.2.1 r.2.2) (ds ++ [r.1]) h1
    rw [List.append_assoc] at h2
    simpa [runRequests] using h2

/-- After each `RecordRequest` call the stored average is the total of the
retained durations divided by their count (the recomputation at
metrics.go:68-73). -/
theorem recordRequest_avg (st : MetricsState) (d : Nat) (tn : String) (ie : Bool) :
    (recordRequest st d tn ie).avgResponseTime
      = totalDuration (recordRequest st d tn ie).responseTimes
        / (recordRequest st d tn ie).responseTimes.length := rfl

/-- After any non-empty run, the stored average is the total of the retained
durations divided by their count. -/
theorem runRequests_avg (reqs : List (Nat × String × Bool)) (st : MetricsState)
    (hne : reqs ≠ []) :
    (runRequests st reqs).avgResponseTime
      = totalDuration (runRequests st reqs).responseTimes
        / (runRequests st reqs).responseTimes.length := by
  induction reqs generalizing st with
  | nil => exact absurd rfl hne
  | cons r rs ih =>
    cases rs with
    | nil => simpa [runRequests] using recordRequest_avg st r.1 r.2.1 r.2.2
    | cons r2 rs2 =>
      have h := ih (recordRequest st r.1 r.2.1 r.2.2) (by simp)
      simpa [runRequests] using h

/-- C10: after any sequence of `RecordRequest` calls on a fresh collector, the
retained response times are exactly the (at most 1000) most recent recorded
durations, and `avgResponseTime` is their total divided by their count (Go
integer division on `time.Duration`); after a non-empty sequence the retained
slice is non-empty, so the division is guarded. -/
theorem recordRequest_window_spec (reqs : List (Nat × String × Bool))
    (hne : reqs ≠ []) :
    (runRequests newMetricsCollector reqs).responseTimes
      = lastN 1000 (reqs.map Prod.fst)
    ∧ (runRequests newMetricsCollector reqs).responseTimes.length ≤ 1000
    ∧ 0 < (runRequests newMetricsCollector reqs).responseTimes.length
    ∧ (runRequests newMetricsCollector reqs).avgResponseTime
      = totalDuration (runRequests newMetricsCollector reqs).responseTimes
        / (runRequests newMetricsCollector reqs).responseTimes.length := by
  have h0 : metricsWindow newMetricsCollector [] := by
    constructor
    · simp [newMetricsCollector, lastN]
    · simp [newMetricsCollector]
  have hw := runRequests_window reqs newMetricsCollector [] h0
  rw [List.nil_append] at hw
  refine ⟨hw.1, hw.2, ?_, runRequests_avg reqs newMetricsCollector hne⟩
  rw [hw.1]
  unfold lastN
  rw [List.length_drop, List.length_map]
  have hpos : reqs.length ≠ 0 := by
    cases reqs with
    | nil => exact absurd rfl hne
    | cons r rs => simp
  omega

/-- Witness for C10 at a concrete input: two recorded requests. -/
theorem recordRequest_window_spec_witness :
    (runRequests newMetricsCollector [(5, "t", false), (7, "", true)]).responseTimes
      = lastN 1000 [5, 7]
    ∧ (runRequests newMetricsCollector [(5, "t", false), (7, "", true)]).avgResponseTime
      = totalDuration
          (runRequests newMetricsCollector [(5, "t", false), (7, "", true)]).responseTimes
        / (runRequests newMetricsCollector
            [(5, "t", false), (7, "", true)]).responseTimes.length := by
  have h := recordRequest_window_spec [(5, "t", false), (7, "", true)] (by simp)
  exact ⟨h.1, h.2.2.2⟩

end Zephyr
